import Mathlib

/-!
Shallow embedding of `src/time_parser.py` (class `TimeParser`).

The Python module parses Chinese/English time expressions into OpenSearch
range dictionaries `{gte, lte, description}`.  Strings are modelled as
`List Char` internally (Python scans by character position); `str.lower()`
and `str.strip()` are modelled on the ASCII range, which covers every
keyword and format character the parser recognises (the Chinese keyword
characters are case-less and are mapped to themselves by `str.lower()`).
-/

namespace TimeParser

/-- Python `\s` / `str.strip()` whitespace, ASCII range. -/
def isPySpace (c : Char) : Bool :=
  c == ' ' || c == '\t' || c == '\n' || c == '\x0d' || c == '\x0b' || c == '\x0c'

/-- Python `str.lower()` on one character, restricted to the ASCII letters
(all characters the parser's keyword alphabet can contain; other
characters map to themselves).  This is core `Char.toLower`. -/
def pyLowerChar (c : Char) : Char := Char.toLower c

/-- Python `str.lower()`. -/
def pyLower (l : List Char) : List Char := l.map pyLowerChar

/-- Python `str.strip()`: drop whitespace from both ends. -/
def pyStrip (l : List Char) : List Char :=
  (((l.dropWhile isPySpace).reverse.dropWhile isPySpace)).reverse

/-- `needle` is a prefix of `hay`. -/
def isPrefixList : List Char → List Char → Bool
  | [], _ => true
  | _ :: _, [] => false
  | a :: as, b :: bs => a == b && isPrefixList as bs

/-- Python `needle in hay` substring test. -/
def containsSub (needle : List Char) : List Char → Bool
  | [] => needle.isEmpty
  | x :: xs => isPrefixList needle (x :: xs) || containsSub needle xs

/-- Value of a digit character. -/
def digitVal (c : Char) : Nat := c.toNat - 48

/-- Python `int` of a non-empty digit string (the regex capture group `(\d+)`). -/
def digitsToNat (l : List Char) : Nat := l.foldl (fun a c => a * 10 + digitVal c) 0

/-- The result dictionary `{'gte': …, 'lte': …, 'description': …}`. -/
structure TimeRange where
  gte : String
  lte : String
  description : String
deriving DecidableEq

/-- Attempt, anchored at the current position, of a numeric relative-time
regex of the shape `pre\s*(\d+)\s*suf` (when `pre` is empty the pattern is
`(\d+)\s*suf` and starts at the digits).  All of the module's numeric
patterns have this shape; the optional `[s]?` tail of `hour[s]?` etc. never
affects whether a match exists nor the captured group, so it is dropped.
Greedy matching is exact here because no suffix starts with a digit or a
whitespace character, so the regex engine never needs to backtrack. -/
def matchNumAt (pre suf : List Char) (l : List Char) : Option Nat :=
  if isPrefixList pre l then
    let l1 := l.drop pre.length
    let l2 := if pre.isEmpty then l1 else l1.dropWhile isPySpace
    let ds := l2.takeWhile Char.isDigit
    let l3 := l2.dropWhile Char.isDigit
    if ds.isEmpty then none
    else if isPrefixList suf (l3.dropWhile isPySpace) then some (digitsToNat ds)
    else none
  else none

/-- `re.search` for a numeric pattern: leftmost position with a match; the
returned value is `int(match.group(1))`. -/
def searchNumPat (pre suf : List Char) : List Char → Option Nat
  | [] => none
  | x :: xs =>
    match matchNumAt pre suf (x :: xs) with
    | some n => some n
    | none => searchNumPat pre suf xs

/-- `TimeParser._convert_to_opensearch_relative`, translated line by line. -/
def unitMap (unit : String) : String :=
  if unit = "hours" then "h"
  else if unit = "days" then "d"
  else if unit = "weeks" then "w"
  else if unit = "months" then "M"
  else "d"

/-- `TimeParser._convert_to_opensearch_relative(number, unit)`.  Weeks are
rescaled to `7*number` days and months to `30*number` days before the
format strings are built; the description map divides back by 7 / 30. -/
def convertToOpensearchRelative (number : Nat) (unit : String) : TimeRange :=
  let osUnit := unitMap unit
  let number1 := if unit = "weeks" then number * 7 else number
  let osUnit1 := if unit = "weeks" then "d" else osUnit
  let number2 := if unit = "months" then number1 * 30 else number1
  let osUnit2 := if unit = "months" then "d" else osUnit1
  let description :=
    if unit = "hours" then "過去" ++ toString number2 ++ "小時"
    else if unit = "days" then "過去" ++ toString number2 ++ "天"
    else if unit = "weeks" then "過去" ++ toString (number2 / 7) ++ "週"
    else if unit = "months" then "過去" ++ toString (number2 / 30) ++ "個月"
    else "過去" ++ toString number2 ++ osUnit2
  { gte := "now-" ++ toString number2 ++ osUnit2, lte := "now", description := description }

/-- The numeric entries of `TimeParser.relative_patterns`, in dictionary
insertion order (Python 3.7+ iterates dicts in insertion order).  Each
entry is the literal prefix (possibly empty), the literal suffix, and the
unit value.  The four special patterns at the end of the dict are skipped
by the scan loop (`continue`), so they are not listed.  The text has
already been lowercased, so under `re.IGNORECASE` the `M` of `(\d+)\s*M`
compares as `m`. -/
def numericPatterns : List ((List Char × List Char) × String) :=
  [ (("過去".data, "小時".data), "hours"),
    (("最近".data, "小時".data), "hours"),
    (([], "小時內".data), "hours"),
    (([], "h".data), "hours"),
    (([], "hour".data), "hours"),
    (("過去".data, "天".data), "days"),
    (("最近".data, "天".data), "days"),
    (([], "天內".data), "days"),
    (([], "d".data), "days"),
    (([], "day".data), "days"),
    (("過去".data, "週".data), "weeks"),
    (("最近".data, "週".data), "weeks"),
    (([], "週內".data), "weeks"),
    (([], "w".data), "weeks"),
    (([], "week".data), "weeks"),
    (("過去".data, "月".data), "months"),
    (("最近".data, "月".data), "months"),
    (([], "月內".data), "months"),
    (([], "m".data), "months"),
    (([], "month".data), "months") ]

/-- The numeric-pattern scan loop of `parse_relative_time`: the first
pattern with a match wins and is converted. -/
def numericScan : List ((List Char × List Char) × String) → List Char → Option TimeRange
  | [], _ => none
  | ((pre, suf), unit) :: ps, l =>
    match searchNumPat pre suf l with
    | some n => some (convertToOpensearchRelative n unit)
    | none => numericScan ps l

/-- `'今天' in text or 'today' in text`. -/
def todayHit (t : List Char) : Bool :=
  containsSub "今天".data t || containsSub "today".data t

/-- `'昨天' in text or 'yesterday' in text`. -/
def yesterdayHit (t : List Char) : Bool :=
  containsSub "昨天".data t || containsSub "yesterday".data t

/-- `'上週' in text or 'last week' in text`. -/
def lastWeekHit (t : List Char) : Bool :=
  containsSub "上週".data t || containsSub "last week".data t

/-- `'上月' in text or 'last month' in text`. -/
def lastMonthHit (t : List Char) : Bool :=
  containsSub "上月".data t || containsSub "last month".data t

/-- `TimeParser.parse_relative_time`: lowercase and strip the text, check
the four named-period keywords first (each returns a fixed range), then
scan the numeric patterns. -/
def parseRelativeTime (text : String) : Option TimeRange :=
  let t := pyStrip (pyLower text.data)
  if todayHit t then some { gte := "now/d", lte := "now", description := "今天" }
  else if yesterdayHit t then
    some { gte := "now-1d/d", lte := "now-1d/d+1d", description := "昨天" }
  else if lastWeekHit t then
    some { gte := "now-7d", lte := "now", description := "過去一週" }
  else if lastMonthHit t then
    some { gte := "now-30d", lte := "now", description := "過去一個月" }
  else numericScan numericPatterns t

/-! ### `datetime.strptime` for the module's ten fixed formats

CPython `_strptime` compiles each directive to a regex fragment:
`%Y ↦ \d\d\d\d`, `%m ↦ 1[0-2]|0[1-9]|[1-9]`,
`%d ↦ 3[0-1]|[1-2]\d|0[1-9]|[1-9]| [1-9]`, `%H ↦ 2[0-3]|[0-1]\d|\d`,
`%M ↦ [0-5]\d|\d`, `%S ↦ 6[0-1]|[0-5]\d|\d`, a literal space in the
format to `\s+`, and other literals to themselves; the whole string must
be consumed.  Alternatives are tried in order with backtracking into the
continuation; every directive here offers at most two alternatives that
can fire at a given position (at most one two-character reading plus at
most one one-character reading).  Defaults for absent directives are
year 1900, month 1, day 1, hour/minute/second 0.  The resulting values
are then validated by the `datetime` constructor (year 1..9999, day within
the month, second 0..59). -/

/-- The numeric directives occurring in the module's formats. -/
inductive FieldKind where
  | fY | fm | fd | fH | fMin | fS
deriving DecidableEq

/-- One token of a compiled strptime format. -/
inductive FTok where
  | lit (c : Char)
  | wsp
  | fld (k : FieldKind)
deriving DecidableEq

/-- Values captured by the directives, with CPython's defaults. -/
structure RawParts where
  year : Nat := 1900
  month : Nat := 1
  day : Nat := 1
  hour : Nat := 0
  minute : Nat := 0
  second : Nat := 0
deriving DecidableEq

def setField (k : FieldKind) (v : Nat) (r : RawParts) : RawParts :=
  match k with
  | .fY => { r with year := v }
  | .fm => { r with month := v }
  | .fd => { r with day := v }
  | .fH => { r with hour := v }
  | .fMin => { r with minute := v }
  | .fS => { r with second := v }

/-- The (value, consumed-length) readings a directive's regex fragment can
produce at the current position, in the order its alternation tries them. -/
def candidates (k : FieldKind) (l : List Char) : List (Nat × Nat) :=
  match k with
  | .fY =>
    match l with
    | a :: b :: c :: d :: _ =>
      if a.isDigit && b.isDigit && c.isDigit && d.isDigit then
        [(digitVal a * 1000 + digitVal b * 100 + digitVal c * 10 + digitVal d, 4)]
      else []
    | _ => []
  | .fm =>
    let two :=
      match l with
      | a :: b :: _ =>
        if a == '1' && (b == '0' || b == '1' || b == '2') then [(10 + digitVal b, 2)]
        else if a == '0' && b.isDigit && !(b == '0') then [(digitVal b, 2)]
        else []
      | _ => []
    let one :=
      match l with
      | a :: _ => if a.isDigit && !(a == '0') then [(digitVal a, 1)] else []
      | _ => []
    two ++ one
  | .fd =>
    let two :=
      match l with
      | a :: b :: _ =>
        if a == '3' && (b == '0' || b == '1') then [(30 + digitVal b, 2)]
        else if (a == '1' || a == '2') && b.isDigit then [(10 * digitVal a + digitVal b, 2)]
        else if a == '0' && b.isDigit && !(b == '0') then [(digitVal b, 2)]
        else if a == ' ' && b.isDigit && !(b == '0') then [(digitVal b, 2)]
        else []
      | _ => []
    let one :=
      match l with
      | a :: _ => if a.isDigit && !(a == '0') then [(digitVal a, 1)] else []
      | _ => []
    two ++ one
  | .fH =>
    let two :=
      match l with
      | a :: b :: _ =>
        if a == '2' && (b == '0' || b == '1' || b == '2' || b == '3') then [(20 + digitVal b, 2)]
        else if (a == '0' || a == '1') && b.isDigit then [(10 * digitVal a + digitVal b, 2)]
        else []
      | _ => []
    let one :=
      match l with
      | a :: _ => if a.isDigit then [(digitVal a, 1)] else []
      | _ => []
    two ++ one
  | .fMin =>
    let two :=
      match l with
      | a :: b :: _ =>
        if ('0' ≤ a && a ≤ '5') && b.isDigit then [(10 * digitVal a + digitVal b, 2)]
        else []
      | _ => []
    let one :=
      match l with
      | a :: _ => if a.isDigit then [(digitVal a, 1)] else []
      | _ => []
    two ++ one
  | .fS =>
    let two :=
      match l with
      | a :: b :: _ =>
        if a == '6' && (b == '0' || b == '1') then [(60 + digitVal b, 2)]
        else if ('0' ≤ a && a ≤ '5') && b.isDigit then [(10 * digitVal a + digitVal b, 2)]
        else []
      | _ => []
    let one :=
      match l with
      | a :: _ => if a.isDigit then [(digitVal a, 1)] else []
      | _ => []
    two ++ one

/-- Anchored match of a compiled format against the whole string, with the
regex engine's backtracking over each directive's (≤ 2) alternatives.
`\s+` is greedy with no backtracking: in every format it is followed by a
digit directive, and whitespace is never a digit. -/
def matchFToks : List FTok → List Char → RawParts → Option RawParts
  | [], [], r => some r
  | [], _ :: _, _ => none
  | FTok.lit c :: ts, x :: xs, r => if x == c then matchFToks ts xs r else none
  | FTok.lit _ :: _, [], _ => none
  | FTok.wsp :: ts, x :: xs, r =>
    if isPySpace x then matchFToks ts (xs.dropWhile isPySpace) r else none
  | FTok.wsp :: _, [], _ => none
  | FTok.fld k :: ts, xs, r =>
    match candidates k xs with
    | [] => none
    | [(v, n)] => matchFToks ts (xs.drop n) (setField k v r)
    | (v1, n1) :: (v2, n2) :: _ =>
      match matchFToks ts (xs.drop n1) (setField k v1 r) with
      | some out => some out
      | none => matchFToks ts (xs.drop n2) (setField k v2 r)

/-- `'%Y{sep}%m{sep}%d %H:%M:%S'` compiled. -/
def fmtYmdHMS (sep : Char) : List FTok :=
  [.fld .fY, .lit sep, .fld .fm, .lit sep, .fld .fd, .wsp,
   .fld .fH, .lit ':', .fld .fMin, .lit ':', .fld .fS]

/-- `'%Y{sep}%m{sep}%d %H:%M'` compiled. -/
def fmtYmdHM (sep : Char) : List FTok :=
  [.fld .fY, .lit sep, .fld .fm, .lit sep, .fld .fd, .wsp,
   .fld .fH, .lit ':', .fld .fMin]

/-- `'%Y{sep}%m{sep}%d'` compiled. -/
def fmtYmd (sep : Char) : List FTok :=
  [.fld .fY, .lit sep, .fld .fm, .lit sep, .fld .fd]

/-- `'%m{sep}%d %H:%M'` compiled. -/
def fmtmdHM (sep : Char) : List FTok :=
  [.fld .fm, .lit sep, .fld .fd, .wsp, .fld .fH, .lit ':', .fld .fMin]

/-- `'%m{sep}%d'` compiled. -/
def fmtmd (sep : Char) : List FTok :=
  [.fld .fm, .lit sep, .fld .fd]

/-- The `formats` list of `TimeParser._parse_datetime`, in source order. -/
def formats : List (List FTok) :=
  [fmtYmdHMS '-', fmtYmdHM '-', fmtYmd '-',
   fmtYmdHMS '/', fmtYmdHM '/', fmtYmd '/',
   fmtmdHM '-', fmtmdHM '/', fmtmd '-', fmtmd '/']

/-- The month/day-only formats' token lists (`'%m-%d %H:%M'`,
`'%m/%d %H:%M'`, `'%m-%d'`, `'%m/%d'`): the formats with no `%Y`. -/
def yearlessFormats : List (List FTok) :=
  [fmtmdHM '-', fmtmdHM '/', fmtmd '-', fmtmd '/']

/-- The year-bearing formats: the first six entries of `formats`, all of
which `_parse_datetime` tries before any month/day-only format. -/
def yearFormats : List (List FTok) :=
  [fmtYmdHMS '-', fmtYmdHM '-', fmtYmd '-',
   fmtYmdHMS '/', fmtYmdHM '/', fmtYmd '/']

/-- A `datetime.datetime` value (microsecond always 0 here). -/
structure PyDateTime where
  year : Nat
  month : Nat
  day : Nat
  hour : Nat
  minute : Nat
  second : Nat
deriving DecidableEq

def isLeapYear (y : Nat) : Bool :=
  (y % 4 == 0 && !(y % 100 == 0)) || y % 400 == 0

def daysInMonth (y m : Nat) : Nat :=
  if m == 2 then (if isLeapYear y then 29 else 28)
  else if m == 4 || m == 6 || m == 9 || m == 11 then 30
  else 31

/-- The `datetime` constructor's validation of the captured parts.  The
regexes already bound month to 1..12, day to 1..31, hour to 0..23 and
minute to 0..59, so only the year range, the day-of-month bound and the
leap-second case can still fail. -/
def mkDateTime (r : RawParts) : Option PyDateTime :=
  if 1 ≤ r.year ∧ r.year ≤ 9999 ∧ 1 ≤ r.day ∧ r.day ≤ daysInMonth r.year r.month
      ∧ r.second ≤ 59 then
    some ⟨r.year, r.month, r.day, r.hour, r.minute, r.second⟩
  else none

/-- `datetime.strptime(s, fmt)` for a compiled format: regex match, then
construction; `none` is a raised `ValueError`. -/
def strptimeF (toks : List FTok) (s : List Char) : Option PyDateTime :=
  (matchFToks toks s {}).bind mkDateTime

/-- `dt.replace(year=cy)`: the constructor re-validates the new year. -/
def replaceYear (cy : Nat) (dt : PyDateTime) : Option PyDateTime :=
  if 1 ≤ cy ∧ cy ≤ 9999 ∧ dt.day ≤ daysInMonth cy dt.month then
    some { dt with year := cy }
  else none

/-- One iteration of the format loop in `_parse_datetime`: parse with the
format and, when the (possibly defaulted) year is the 1900 sentinel,
substitute the current year; `none` means the caught `ValueError`. -/
def tryFormat (cy : Nat) (toks : List FTok) (s : List Char) : Option PyDateTime :=
  (strptimeF toks s).bind fun dt =>
    if dt.year = 1900 then replaceYear cy dt else some dt

/-- The format loop: first format that parses wins. -/
def tryFormats (cy : Nat) : List (List FTok) → List Char → Option PyDateTime
  | [], _ => none
  | f :: fs, s =>
    match tryFormat cy f s with
    | some dt => some dt
    | none => tryFormats cy fs s

/-- `TimeParser._parse_datetime(time_str)`, parametrised by the current
calendar year `cy` (the effectful `datetime.now().year`). -/
def parseDatetime (cy : Nat) (timeStr : String) : Option PyDateTime :=
  tryFormats cy formats (pyStrip timeStr.data)

def pad2 (n : Nat) : String :=
  if n < 10 then "0" ++ toString n else toString n

def pad4 (n : Nat) : String :=
  if n < 10 then "000" ++ toString n
  else if n < 100 then "00" ++ toString n
  else if n < 1000 then "0" ++ toString n
  else toString n

/-- `datetime.isoformat()` with microsecond 0. -/
def isoformat (dt : PyDateTime) : String :=
  pad4 dt.year ++ "-" ++ pad2 dt.month ++ "-" ++ pad2 dt.day ++ "T"
    ++ pad2 dt.hour ++ ":" ++ pad2 dt.minute ++ ":" ++ pad2 dt.second

/-- `dt.strftime("%Y-%m-%d %H:%M")`. -/
def strftimeYmdHM (dt : PyDateTime) : String :=
  pad4 dt.year ++ "-" ++ pad2 dt.month ++ "-" ++ pad2 dt.day ++ " "
    ++ pad2 dt.hour ++ ":" ++ pad2 dt.minute

/-- `TimeParser.parse_absolute_time(start_time, end_time)`.  Both bounds
must parse; otherwise the function returns `None`.  Nothing after the two
parses can raise, so the `try/except` needs no further modelling. -/
def parseAbsoluteTime (cy : Nat) (startTime endTime : String) : Option TimeRange :=
  match parseDatetime cy startTime, parseDatetime cy endTime with
  | some s, some e =>
    some { gte := isoformat s, lte := isoformat e,
           description := "從 " ++ strftimeYmdHM s ++ " 到 " ++ strftimeYmdHM e }
  | _, _ => none

/-! ### `analyze_time_query` -/

/-- One token of an absolute-time indicator regex: `dig n` is `\d{n}`
(exactly `n` digit characters), `ch c` a literal. -/
inductive ITok where
  | dig (n : Nat)
  | ch (c : Char)
deriving DecidableEq

/-- Anchored match of an indicator pattern at the current position.
`\d{n}` is an exact count, so there is no backtracking. -/
def matchITok : List ITok → List Char → Bool
  | [], _ => true
  | ITok.ch c :: ts, x :: xs => x == c && matchITok ts xs
  | ITok.ch _ :: _, [] => false
  | ITok.dig n :: ts, xs =>
    (xs.take n).length == n && (xs.take n).all Char.isDigit && matchITok ts (xs.drop n)

/-- `re.search` for an indicator pattern: does any position match? -/
def searchITok (p : List ITok) : List Char → Bool
  | [] => matchITok p []
  | x :: xs => matchITok p (x :: xs) || searchITok p xs

/-- The `absolute_indicators` list: `\d{4}-\d{2}-\d{2}`, `\d{4}/\d{2}/\d{2}`,
`\d{2}-\d{2}`, `\d{2}/\d{2}`, in source order. -/
def absoluteIndicators : List (List ITok) :=
  [ [.dig 4, .ch '-', .dig 2, .ch '-', .dig 2],
    [.dig 4, .ch '/', .dig 2, .ch '/', .dig 2],
    [.dig 2, .ch '-', .dig 2],
    [.dig 2, .ch '/', .dig 2] ]

/-- The message appended when a date-like pattern is detected. -/
def dateDetectedMsg : String := "檢測到日期格式，請提供完整的時間區間（開始時間和結束時間）"

/-- The generic relative-time suggestion. -/
def relativeSuggestion : String :=
  "可以使用相對時間：\x27過去24小時\x27、\x27過去7天\x27、\x27昨天\x27等"

/-- The generic absolute-time suggestion. -/
def absoluteSuggestion : String :=
  "或指定絕對時間區間：\x272025-07-01 到 2025-07-10\x27"

/-- The result dictionary of `analyze_time_query`. -/
structure AnalyzeResult where
  has_time : Bool
  time_range : Option TimeRange
  suggestions : List String
  type : Option String
deriving DecidableEq

/-- `TimeParser.analyze_time_query(query)`.  A relative hit returns
immediately; otherwise the first matching absolute indicator appends one
message and sets the type (the loop `break`s, and every indicator appends
the same constant message, so `List.any` suffices); if nothing was found,
the two generic suggestions are substituted. -/
def analyzeTimeQuery (query : String) : AnalyzeResult :=
  match parseRelativeTime query with
  | some r => { has_time := true, time_range := some r, suggestions := [], type := some "relative" }
  | none =>
    let hasInd := absoluteIndicators.any (fun p => searchITok p query.data)
    let suggestions := if hasInd then [dateDetectedMsg] else []
    let ty : Option String := if hasInd then some "absolute" else none
    if suggestions.isEmpty then
      { has_time := false, time_range := none,
        suggestions := [relativeSuggestion, absoluteSuggestion], type := ty }
    else
      { has_time := false, time_range := none, suggestions := suggestions, type := ty }

/-- Whether a compiled format contains the `%Y` directive. -/
def mentionsYear : List FTok →  Bool
  | [] => false
  | FTok.fld FieldKind.fY :: _ => true
  | _ :: ts => mentionsYear ts

/-! ### Claims -/

/-- C1: for every quantity `n ≥ 0` (a natural number), the relative-time
conversion `_convert_to_opensearch_relative` matches the reference table:
`(n, hours)` gives `gte = "now-{n}h"`, `(n, days)` gives `"now-{n}d"`,
`(n, weeks)` gives `"now-{7*n}d"`, `(n, months)` gives `"now-{30*n}d"`,
and in every case `lte = "now"`. -/
theorem convert_matches_reference_table (n : Nat) :
    (convertToOpensearchRelative n "hours").gte = "now-" ++ toString n ++ "h" ∧
    (convertToOpensearchRelative n "days").gte = "now-" ++ toString n ++ "d" ∧
    (convertToOpensearchRelative n "weeks").gte = "now-" ++ toString (7 * n) ++ "d" ∧
    (convertToOpensearchRelative n "months").gte = "now-" ++ toString (30 * n) ++ "d" ∧
    (convertToOpensearchRelative n "hours").lte = "now" ∧
    (convertToOpensearchRelative n "days").lte = "now" ∧
    (convertToOpensearchRelative n "weeks").lte = "now" ∧
    (convertToOpensearchRelative n "months").lte = "now" := by
  refine ⟨rfl, rfl, ?_, ?_, rfl, rfl, rfl, rfl⟩
  · show "now-" ++ toString (n * 7) ++ "d" = "now-" ++ toString (7 * n) ++ "d"
    rw [Nat.mul_comm]
  · show "now-" ++ toString (n * 30) ++ "d" = "now-" ++ toString (30 * n) ++ "d"
    rw [Nat.mul_comm]

/-- C5: the `description` produced by `_convert_to_opensearch_relative`
reflects the original input quantity and granularity (`過去{n}小時`,
`過去{n}天`, `過去{n}週`, `過去{n}個月`), not the post-conversion day
count: for weeks the stored `7*n` days are divided back by 7, and for
months the stored `30*n` days divided back by 30. -/
theorem description_reflects_input_granularity (n : Nat) :
    (convertToOpensearchRelative n "hours").description = "過去" ++ toString n ++ "小時" ∧
    (convertToOpensearchRelative n "days").description = "過去" ++ toString n ++ "天" ∧
    (convertToOpensearchRelative n "weeks").description = "過去" ++ toString n ++ "週" ∧
    (convertToOpensearchRelative n "months").description = "過去" ++ toString n ++ "個月" := by
  refine ⟨rfl, rfl, ?_, ?_⟩
  · show "過去" ++ toString (n * 7 / 7) ++ "週" = "過去" ++ toString n ++ "週"
    rw [Nat.mul_div_cancel n (by norm_num)]
  · show "過去" ++ toString (n * 30 / 30) ++ "個月" = "過去" ++ toString n ++ "個月"
    rw [Nat.mul_div_cancel n (by norm_num)]

/-- C7: end-to-end, `analyze_time_query("過去3天內登入失敗")` reports
`has_time = true`, `type = relative`, and the range `gte = "now-3d"`,
`lte = "now"` (the classifier composed with the relative normaliser). -/
theorem analyze_past_three_days :
    analyzeTimeQuery "過去3天內登入失敗" =
      { has_time := true,
        time_range := some { gte := "now-3d", lte := "now", description := "過去3天" },
        suggestions := [],
        type := some "relative" } := by
  rfl

/-- C2: whenever the lowered, stripped query text contains any of the
four named-period keywords (今天/today, 昨天/yesterday, 上週/last week,
上月/last month), `parse_relative_time` resolves entirely within the
named-period checks — which run before the numeric-pattern scan — and
returns the triggered period's fixed range, so a numeric pattern that is
also present (such as `過去24小時`) is never reached: the result is the
first triggered period's entry, and in every case one of the four fixed
named ranges. -/
theorem named_period_precedes_numeric_scan (text : String)
    (h : todayHit (pyStrip (pyLower text.data)) = true ∨
         yesterdayHit (pyStrip (pyLower text.data)) = true ∨
         lastWeekHit (pyStrip (pyLower text.data)) = true ∨
         lastMonthHit (pyStrip (pyLower text.data)) = true) :
    parseRelativeTime text =
      (if todayHit (pyStrip (pyLower text.data)) then
        some { gte := "now/d", lte := "now", description := "今天" }
      else if yesterdayHit (pyStrip (pyLower text.data)) then
        some { gte := "now-1d/d", lte := "now-1d/d+1d", description := "昨天" }
      else if lastWeekHit (pyStrip (pyLower text.data)) then
        some { gte := "now-7d", lte := "now", description := "過去一週" }
      else some { gte := "now-30d", lte := "now", description := "過去一個月" }) ∧
    (parseRelativeTime text = some { gte := "now/d", lte := "now", description := "今天" } ∨
     parseRelativeTime text = some { gte := "now-1d/d", lte := "now-1d/d+1d", description := "昨天" } ∨
     parseRelativeTime text = some { gte := "now-7d", lte := "now", description := "過去一週" } ∨
     parseRelativeTime text = some { gte := "now-30d", lte := "now", description := "過去一個月" }) := by
  cases k1 : todayHit (pyStrip (pyLower text.data)) with
  | true =>
    have e : parseRelativeTime text =
        some { gte := "now/d", lte := "now", description := "今天" } := by
      unfold parseRelativeTime
      simp [k1]
    exact ⟨by rw [e]; simp [k1], Or.inl e⟩
  | false =>
    cases k2 : yesterdayHit (pyStrip (pyLower text.data)) with
    | true =>
      have e : parseRelativeTime text =
          some { gte := "now-1d/d", lte := "now-1d/d+1d", description := "昨天" } := by
        unfold parseRelativeTime
        simp [k1, k2]
      exact ⟨by rw [e]; simp [k1, k2], Or.inr (Or.inl e)⟩
    | false =>
      cases k3 : lastWeekHit (pyStrip (pyLower text.data)) with
      | true =>
        have e : parseRelativeTime text =
            some { gte := "now-7d", lte := "now", description := "過去一週" } := by
          unfold parseRelativeTime
          simp [k1, k2, k3]
        exact ⟨by rw [e]; simp [k1, k2, k3], Or.inr (Or.inr (Or.inl e))⟩
      | false =>
        cases k4 : lastMonthHit (pyStrip (pyLower text.data)) with
        | true =>
          have e : parseRelativeTime text =
              some { gte := "now-30d", lte := "now", description := "過去一個月" } := by
            unfold parseRelativeTime
            simp [k1, k2, k3, k4]
          exact ⟨by rw [e]; simp [k1, k2, k3], Or.inr (Or.inr (Or.inr e))⟩
        | false => simp [k1, k2, k3, k4] at h

/-- C2 witness: each named-period keyword combined with the numeric
pattern `過去24小時` resolves to that period's fixed range, not to
`now-24h`; in particular `"今天 過去24小時"` yields the today range
(`gte = "now/d"`, `lte = "now"`). -/
theorem named_period_precedes_numeric_scan_witness :
    parseRelativeTime "今天 過去24小時" =
      some { gte := "now/d", lte := "now", description := "今天" } ∧
    parseRelativeTime "昨天 過去24小時" =
      some { gte := "now-1d/d", lte := "now-1d/d+1d", description := "昨天" } ∧
    parseRelativeTime "上週 過去24小時" =
      some { gte := "now-7d", lte := "now", description := "過去一週" } ∧
    parseRelativeTime "上月 過去24小時" =
      some { gte := "now-30d", lte := "now", description := "過去一個月" } :=
  ⟨((named_period_precedes_numeric_scan "今天 過去24小時"
      (Or.inl (by decide))).1).trans (by decide),
   ((named_period_precedes_numeric_scan "昨天 過去24小時"
      (Or.inr (Or.inl (by decide)))).1).trans (by decide),
   ((named_period_precedes_numeric_scan "上週 過去24小時"
      (Or.inr (Or.inr (Or.inl (by decide))))).1).trans (by decide),
   ((named_period_precedes_numeric_scan "上月 過去24小時"
      (Or.inr (Or.inr (Or.inr (by decide))))).1).trans (by decide)⟩

/-- C4: whichever keyword (Chinese or English) triggers a named period,
`parse_relative_time` returns exactly the fixed table entry for that
period: today `("now/d", "now")`, yesterday `("now-1d/d", "now-1d/d+1d")`,
last week `("now-7d", "now")`, last month `("now-30d", "now")`.  A later
period's entry is returned when no earlier period's keyword is present. -/
theorem named_period_fixed_table (text : String) :
    (todayHit (pyStrip (pyLower text.data)) = true →
      parseRelativeTime text = some { gte := "now/d", lte := "now", description := "今天" }) ∧
    (todayHit (pyStrip (pyLower text.data)) = false →
      yesterdayHit (pyStrip (pyLower text.data)) = true →
      parseRelativeTime text =
        some { gte := "now-1d/d", lte := "now-1d/d+1d", description := "昨天" }) ∧
    (todayHit (pyStrip (pyLower text.data)) = false →
      yesterdayHit (pyStrip (pyLower text.data)) = false →
      lastWeekHit (pyStrip (pyLower text.data)) = true →
      parseRelativeTime text =
        some { gte := "now-7d", lte := "now", description := "過去一週" }) ∧
    (todayHit (pyStrip (pyLower text.data)) = false →
      yesterdayHit (pyStrip (pyLower text.data)) = false →
      lastWeekHit (pyStrip (pyLower text.data)) = false →
      lastMonthHit (pyStrip (pyLower text.data)) = true →
      parseRelativeTime text =
        some { gte := "now-30d", lte := "now", description := "過去一個月" }) := by
  refine ⟨fun h1 => ?_, fun h1 h2 => ?_, fun h1 h2 h3 => ?_, fun h1 h2 h3 h4 => ?_⟩ <;>
    · unfold parseRelativeTime
      simp_all

/-- C4 witness: each of the four periods, triggered by a Chinese or an
English keyword alone, produces its table entry. -/
theorem named_period_fixed_table_witness :
    parseRelativeTime "today" = some { gte := "now/d", lte := "now", description := "今天" } ∧
    parseRelativeTime "昨天" =
      some { gte := "now-1d/d", lte := "now-1d/d+1d", description := "昨天" } ∧
    parseRelativeTime "上週" =
      some { gte := "now-7d", lte := "now", description := "過去一週" } ∧
    parseRelativeTime "last month" =
      some { gte := "now-30d", lte := "now", description := "過去一個月" } :=
  ⟨(named_period_fixed_table "today").1 (by decide),
   (named_period_fixed_table "昨天").2.1 (by decide) (by decide),
   (named_period_fixed_table "上週").2.2.1 (by decide) (by decide) (by decide),
   (named_period_fixed_table "last month").2.2.2 (by decide) (by decide) (by decide) (by decide)⟩

/-- C3: if either input fails to parse (`_parse_datetime` returns no
value, i.e. every accepted format raised `ValueError`), then
`parse_absolute_time` returns `None` — never a partial range — and, the
embedding being total, no exception escapes the function; moreover
`parse_absolute_time("2025-13-01", "2025-07-10")` returns `None` for
every current year, the invalid month 13 matching no format. -/
theorem parse_absolute_none_on_parse_failure (cy : Nat) (a b : String)
    (h : parseDatetime cy a = none ∨ parseDatetime cy b = none) :
    parseAbsoluteTime cy a b = none ∧
    parseAbsoluteTime cy "2025-13-01" "2025-07-10" = none := by
  constructor
  · rcases h with h | h
    · unfold parseAbsoluteTime
      rw [h]
    · unfold parseAbsoluteTime
      rw [h]
      cases parseDatetime cy a <;> rfl
  · rfl

/-- C3 witness: the claim's concrete instance, with an invalid month in
the first bound. -/
theorem parse_absolute_none_on_parse_failure_witness :
    parseAbsoluteTime 2025 "2025-13-01" "2025-07-10" = none :=
  (parse_absolute_none_on_parse_failure 2025 "2025-13-01" "2025-07-10" (Or.inl rfl)).1

/-- C10: `parse_absolute_time` performs no ordering check: whenever both
inputs parse, it succeeds with `gte` taken from the first input and `lte`
from the second, even if the first instant is later; in particular
`parse_absolute_time("2025-07-10", "2025-07-01")` returns the reversed
range rather than `None`, for every current year. -/
theorem parse_absolute_no_ordering_check (cy : Nat) (a b : String) (da db : PyDateTime)
    (ha : parseDatetime cy a = some da) (hb : parseDatetime cy b = some db) :
    parseAbsoluteTime cy a b =
      some { gte := isoformat da, lte := isoformat db,
             description := "從 " ++ strftimeYmdHM da ++ " 到 " ++ strftimeYmdHM db } ∧
    parseAbsoluteTime cy "2025-07-10" "2025-07-01" =
      some { gte := "2025-07-10T00:00:00", lte := "2025-07-01T00:00:00",
             description := "從 2025-07-10 00:00 到 2025-07-01 00:00" } := by
  constructor
  · unfold parseAbsoluteTime
    rw [ha, hb]
  · rfl

/-- C10 witness: the reversed pair from the claim, at a concrete year. -/
theorem parse_absolute_no_ordering_check_witness :
    parseAbsoluteTime 2025 "2025-07-10" "2025-07-01" =
      some { gte := "2025-07-10T00:00:00", lte := "2025-07-01T00:00:00",
             description := "從 2025-07-10 00:00 到 2025-07-01 00:00" } :=
  (parse_absolute_no_ordering_check 2025 "2025-07-10" "2025-07-01"
    ⟨2025, 7, 10, 0, 0, 0⟩ ⟨2025, 7, 1, 0, 0, 0⟩ rfl rfl).2

theorem tryFormats_cons (cy : Nat) (f : List FTok) (fs : List (List FTok)) (s : List Char) :
    tryFormats cy (f :: fs) s =
      match tryFormat cy f s with
      | some dt => some dt
      | none => tryFormats cy fs s := rfl

theorem tryFormats_cons_none {cy : Nat} {f : List FTok} {fs : List (List FTok)} {s : List Char}
    (h : tryFormat cy f s = none) :
    tryFormats cy (f :: fs) s = tryFormats cy fs s := by
  rw [tryFormats_cons, h]

theorem tryFormats_cons_some {cy : Nat} {f : List FTok} {fs : List (List FTok)} {s : List Char}
    {dt : PyDateTime} (h : tryFormat cy f s = some dt) :
    tryFormats cy (f :: fs) s = some dt := by
  rw [tryFormats_cons, h]

theorem replaceYear_year {cy : Nat} {dt dt2 : PyDateTime}
    (h : replaceYear cy dt = some dt2) : dt2.year = cy := by
  unfold replaceYear at h
  split at h
  · cases h
    rfl
  · cases h

theorem tryFormat_year_1900 {cy : Nat} {f : List FTok} {s : List Char} {dt : PyDateTime}
    (h : tryFormat cy f s = some dt) (hy : dt.year = 1900) : cy = 1900 := by
  unfold tryFormat at h
  cases hs : strptimeF f s with
  | none => rw [hs] at h; cases h
  | some d0 =>
    rw [hs] at h
    simp only [Option.some_bind] at h
    split at h
    · rw [← hy, replaceYear_year h]
    · cases h
      exact absurd hy (by assumption)

theorem tryFormats_year_1900 {cy : Nat} {dt : PyDateTime} (hy : dt.year = 1900) :
    ∀ (fs : List (List FTok)) (s : List Char), tryFormats cy fs s = some dt → cy = 1900 := by
  intro fs
  induction fs with
  | nil => intro s h; cases h
  | cons f fs ih =>
    intro s h
    rw [tryFormats_cons] at h
    cases hf : tryFormat cy f s with
    | some d =>
      rw [hf] at h
      cases h
      exact tryFormat_year_1900 hf hy
    | none =>
      rw [hf] at h
      exact ih s h

/-- C9: `_parse_datetime` uses `year == 1900` as the sentinel for an
omitted year, so a parse result can carry year 1900 only if the current
year itself is 1900 — an explicit year 1900 in the input is silently
replaced by the current calendar year, as the concrete input
`"1900-06-01"` shows. -/
theorem year_1900_replaced_by_current_year (cy : Nat) :
    (∀ (s : String) (dt : PyDateTime),
        parseDatetime cy s = some dt → dt.year = 1900 → cy = 1900) ∧
    (1 ≤ cy → cy ≤ 9999 → parseDatetime cy "1900-06-01" = some ⟨cy, 6, 1, 0, 0, 0⟩) := by
  constructor
  · intro s dt h hy
    exact tryFormats_year_1900 hy formats (pyStrip s.data) h
  · intro h1 h2
    have e1 : tryFormat cy (fmtYmdHMS '-') (pyStrip "1900-06-01".data) = none := rfl
    have e2 : tryFormat cy (fmtYmdHM '-') (pyStrip "1900-06-01".data) = none := rfl
    have e3 : tryFormat cy (fmtYmd '-') (pyStrip "1900-06-01".data) =
        replaceYear cy ⟨1900, 6, 1, 0, 0, 0⟩ := rfl
    have e4 : replaceYear cy ⟨1900, 6, 1, 0, 0, 0⟩ = some ⟨cy, 6, 1, 0, 0, 0⟩ := by
      unfold replaceYear
      rw [if_pos]
      exact ⟨h1, h2, by norm_num [daysInMonth]⟩
    show tryFormats cy formats (pyStrip "1900-06-01".data) = some ⟨cy, 6, 1, 0, 0, 0⟩
    rw [show formats = fmtYmdHMS '-' :: fmtYmdHM '-' :: fmtYmd '-' ::
          [fmtYmdHMS '/', fmtYmdHM '/', fmtYmd '/',
           fmtmdHM '-', fmtmdHM '/', fmtmd '-', fmtmd '/'] from rfl,
        tryFormats_cons_none e1, tryFormats_cons_none e2,
        tryFormats_cons_some (e3.trans e4)]

/-- C9 witness: at the concrete current year 2026, `"1900-06-01"` parses
to June 1 of 2026, not of 1900. -/
theorem year_1900_replaced_by_current_year_witness :
    parseDatetime 2026 "1900-06-01" = some ⟨2026, 6, 1, 0, 0, 0⟩ :=
  (year_1900_replaced_by_current_year 2026).2 (by norm_num) (by norm_num)

theorem setField_year {k : FieldKind} (v : Nat) (r : RawParts) (hk : k ≠ FieldKind.fY) :
    (setField k v r).year = r.year := by
  cases k
  · exact absurd rfl hk
  all_goals rfl

theorem matchFToks_year_of_no_fY :
    ∀ (ts : List FTok) (s : List Char) (r0 r : RawParts),
      mentionsYear ts = false → matchFToks ts s r0 = some r → r.year = r0.year := by
  intro ts
  induction ts with
  | nil =>
    intro s r0 r _ h
    cases s with
    | nil => cases h; rfl
    | cons x xs => cases h
  | cons t ts ih =>
    intro s r0 r hm h
    cases t with
    | lit c =>
      cases s with
      | nil => cases h
      | cons x xs =>
        rw [matchFToks] at h
        split at h
        · exact ih xs r0 r (by simpa [mentionsYear] using hm) h
        · cases h
    | wsp =>
      cases s with
      | nil => cases h
      | cons x xs =>
        rw [matchFToks] at h
        split at h
        · exact ih (xs.dropWhile isPySpace) r0 r (by simpa [mentionsYear] using hm) h
        · cases h
    | fld k =>
      have hk : k ≠ FieldKind.fY := by
        intro hEq
        subst hEq
        simp [mentionsYear] at hm
      have hm2 : mentionsYear ts = false := by
        cases k
        · exact absurd rfl hk
        all_goals simpa [mentionsYear] using hm
      rw [matchFToks] at h
      cases hc : candidates k s with
      | nil =>
        rw [hc] at h
        have h2 : (none : Option RawParts) = some r := h
        cases h2
      | cons c1 cs =>
        obtain ⟨v1, n1⟩ := c1
        cases cs with
        | nil =>
          rw [hc] at h
          have h2 : matchFToks ts (s.drop n1) (setField k v1 r0) = some r := h
          rw [ih (s.drop n1) (setField k v1 r0) r hm2 h2, setField_year v1 r0 hk]
        | cons c2 cs2 =>
          obtain ⟨v2, n2⟩ := c2
          rw [hc] at h
          cases hfirst : matchFToks ts (s.drop n1) (setField k v1 r0) with
          | some out =>
            have h2 : (match matchFToks ts (s.drop n1) (setField k v1 r0) with
                | some out => some out
                | none => matchFToks ts (s.drop n2) (setField k v2 r0)) = some r := h
            rw [hfirst] at h2
            have h3 : some out = some r := h2
            injection h3 with h4
            rw [← h4, ih (s.drop n1) (setField k v1 r0) out hm2 hfirst,
               setField_year v1 r0 hk]
          | none =>
            have h2 : (match matchFToks ts (s.drop n1) (setField k v1 r0) with
                | some out => some out
                | none => matchFToks ts (s.drop n2) (setField k v2 r0)) = some r := h
            rw [hfirst] at h2
            have h3 : matchFToks ts (s.drop n2) (setField k v2 r0) = some r := h2
            rw [ih (s.drop n2) (setField k v2 r0) r hm2 h3, setField_year v2 r0 hk]

theorem daysInMonth_1900_le (y m : Nat) : daysInMonth 1900 m ≤ daysInMonth y m := by
  unfold daysInMonth
  by_cases hm : (m == 2) = true
  · rw [if_pos hm, if_pos hm,
      show (if isLeapYear 1900 = true then 29 else 28) = 28 from rfl]
    split <;> omega
  · rw [if_neg hm, if_neg hm]

theorem strptimeF_yearless {f : List FTok} {s : List Char} {dt : PyDateTime}
    (hf : mentionsYear f = false) (h : strptimeF f s = some dt) :
    dt.year = 1900 ∧ dt.day ≤ daysInMonth 1900 dt.month := by
  unfold strptimeF at h
  cases hmatch : matchFToks f s {} with
  | none => rw [hmatch] at h; cases h
  | some r =>
    rw [hmatch] at h
    simp only [Option.some_bind] at h
    have hy : r.year = 1900 := matchFToks_year_of_no_fY f s {} r hf hmatch
    unfold mkDateTime at h
    split at h
    case isTrue hc =>
      cases h
      refine ⟨hy, ?_⟩
      show r.day ≤ daysInMonth 1900 r.month
      rw [← hy]
      exact hc.2.2.2.1
    case isFalse => cases h

theorem tryFormat_yearless_success {cy : Nat} {f : List FTok} {s : List Char}
    {dt : PyDateTime} (h1 : 1 ≤ cy) (h2 : cy ≤ 9999)
    (hf : mentionsYear f = false) (h : strptimeF f s = some dt) :
    tryFormat cy f s = some { dt with year := cy } := by
  obtain ⟨hy, hd⟩ := strptimeF_yearless hf h
  unfold tryFormat
  rw [h]
  simp only [Option.some_bind]
  rw [if_pos hy]
  unfold replaceYear
  rw [if_pos]
  exact ⟨h1, h2, le_trans hd (daysInMonth_1900_le cy dt.month)⟩

theorem tryFormats_yearless (cy : Nat) (h1 : 1 ≤ cy) (h2 : cy ≤ 9999) :
    ∀ (fs : List (List FTok)), (∀ f ∈ fs, mentionsYear f = false) →
      ∀ (s : List Char), (∃ f ∈ fs, ∃ dt, strptimeF f s = some dt) →
      ∃ da, tryFormats cy fs s = some da ∧ da.year = cy := by
  intro fs
  induction fs with
  | nil =>
    intro _ s hex
    obtain ⟨f, hf, _⟩ := hex
    cases hf
  | cons f fs ih =>
    intro hall s hex
    cases hsf : strptimeF f s with
    | some dt =>
      exact ⟨{ dt with year := cy },
        tryFormats_cons_some
          (tryFormat_yearless_success h1 h2 (hall f (List.mem_cons_self f fs)) hsf),
        rfl⟩
    | none =>
      have hex2 : ∃ g ∈ fs, ∃ dt, strptimeF g s = some dt := by
        obtain ⟨g, hg, dt, hgdt⟩ := hex
        rcases List.mem_cons.mp hg with rfl | hg2
        · rw [hsf] at hgdt; cases hgdt
        · exact ⟨g, hg2, dt, hgdt⟩
      have hnone : tryFormat cy f s = none := by
        unfold tryFormat
        rw [hsf]
        rfl
      obtain ⟨da, hda, hy⟩ := ih (fun g hg => hall g (List.mem_cons_of_mem f hg)) s hex2
      exact ⟨da, (tryFormats_cons_none hnone).trans hda, hy⟩

theorem tryFormats_append_none {cy : Nat} {s : List Char} :
    ∀ (fs1 : List (List FTok)), (∀ f ∈ fs1, strptimeF f s = none) →
      ∀ (fs2 : List (List FTok)), tryFormats cy (fs1 ++ fs2) s = tryFormats cy fs2 s := by
  intro fs1
  induction fs1 with
  | nil => intro _ fs2; rfl
  | cons f fs ih =>
    intro hall fs2
    have hnone : tryFormat cy f s = none := by
      unfold tryFormat
      rw [hall f (List.mem_cons_self f fs)]
      rfl
    rw [List.cons_append, tryFormats_cons_none hnone]
    exact ih (fun g hg => hall g (List.mem_cons_of_mem f hg)) fs2

theorem formats_split : formats = yearFormats ++ yearlessFormats := rfl

/-- C6: for every pair of input strings on which all six year-bearing
formats fail and some month/day-only format matches (i.e. both strings
parse against a month/day-only format, in the format-priority order of
`_parse_datetime`), `parse_absolute_time` succeeds and both returned
bounds carry the current calendar year: the yearless formats leave the
year at the 1900 default, the sentinel replacement installs `cy`, and the
re-validation in `replace(year=cy)` always passes because 1900 is not a
leap year.  The witness instantiates this at the claim's pair
`("07-01", "07-10")`. -/
theorem month_day_only_gets_current_year (cy : Nat) (a b : String)
    (h1 : 1 ≤ cy) (h2 : cy ≤ 9999)
    (hYa : ∀ f ∈ yearFormats, strptimeF f (pyStrip a.data) = none)
    (hMa : ∃ f ∈ yearlessFormats, ∃ dt, strptimeF f (pyStrip a.data) = some dt)
    (hYb : ∀ f ∈ yearFormats, strptimeF f (pyStrip b.data) = none)
    (hMb : ∃ f ∈ yearlessFormats, ∃ dt, strptimeF f (pyStrip b.data) = some dt) :
    ∃ da db,
      parseDatetime cy a = some da ∧ da.year = cy ∧
      parseDatetime cy b = some db ∧ db.year = cy ∧
      parseAbsoluteTime cy a b =
        some { gte := isoformat da, lte := isoformat db,
               description := "從 " ++ strftimeYmdHM da ++ " 到 " ++ strftimeYmdHM db } := by
  have hyl : ∀ f ∈ yearlessFormats, mentionsYear f = false := by decide
  obtain ⟨da, hda, hya⟩ :=
    tryFormats_yearless cy h1 h2 yearlessFormats hyl (pyStrip a.data) hMa
  obtain ⟨db, hdb, hyb⟩ :=
    tryFormats_yearless cy h1 h2 yearlessFormats hyl (pyStrip b.data) hMb
  have hpa : parseDatetime cy a = some da := by
    unfold parseDatetime
    rw [formats_split, tryFormats_append_none yearFormats hYa yearlessFormats, hda]
  have hpb : parseDatetime cy b = some db := by
    unfold parseDatetime
    rw [formats_split, tryFormats_append_none yearFormats hYb yearlessFormats, hdb]
  refine ⟨da, db, hpa, hya, hpb, hyb, ?_⟩
  unfold parseAbsoluteTime
  rw [hpa, hpb]

/-- C6 witness: at the concrete current year 2026, the pair
`("07-01", "07-10")` satisfies the hypotheses and both bounds of
`parse_absolute_time` carry 2026. -/
theorem month_day_only_gets_current_year_witness :
    parseAbsoluteTime 2026 "07-01" "07-10" =
      some { gte := "2026-07-01T00:00:00", lte := "2026-07-10T00:00:00",
             description := "從 2026-07-01 00:00 到 2026-07-10 00:00" } := by
  obtain ⟨da, db, hda, _, hdb, _, habs⟩ :=
    month_day_only_gets_current_year 2026 "07-01" "07-10"
      (by norm_num) (by norm_num) (by decide)
      ⟨fmtmd '-', by decide, ⟨1900, 7, 1, 0, 0, 0⟩, by decide⟩
      (by decide)
      ⟨fmtmd '-', by decide, ⟨1900, 7, 10, 0, 0, 0⟩, by decide⟩
  have ea : da = ⟨2026, 7, 1, 0, 0, 0⟩ := by
    have h := hda.symm.trans
      (show parseDatetime 2026 "07-01" = some ⟨2026, 7, 1, 0, 0, 0⟩ by decide)
    injection h
  have eb : db = ⟨2026, 7, 10, 0, 0, 0⟩ := by
    have h := hdb.symm.trans
      (show parseDatetime 2026 "07-10" = some ⟨2026, 7, 10, 0, 0, 0⟩ by decide)
    injection h
  rw [ea, eb] at habs
  exact habs.trans (by decide)

theorem pyLowerChar_not_digit {c : Char} (h : c.isDigit = false) :
    (pyLowerChar c).isDigit = false := by
  unfold pyLowerChar
  simp only [Char.toLower]
  by_cases h1 : c.toNat ≥ 65 ∧ c.toNat ≤ 90
  · rw [if_pos h1]
    obtain ⟨hl, hr⟩ := h1
    generalize c.toNat = n at hl hr ⊢
    interval_cases n <;> decide
  · rw [if_neg h1]
    exact h

theorem mem_dropWhile_imp {p : Char → Bool} {l : List Char} {c : Char}
    (h : c ∈ l.dropWhile p) : c ∈ l := by
  induction l with
  | nil => exact h
  | cons x xs ih =>
    by_cases hx : p x = true
    · rw [List.dropWhile_cons_of_pos hx] at h
      exact List.mem_cons_of_mem _ (ih h)
    · rw [List.dropWhile_cons_of_neg hx] at h
      exact h

theorem mem_pyStrip {l : List Char} {c : Char} (h : c ∈ pyStrip l) : c ∈ l := by
  unfold pyStrip at h
  rw [List.mem_reverse] at h
  have h2 := mem_dropWhile_imp h
  rw [List.mem_reverse] at h2
  exact mem_dropWhile_imp h2

theorem processed_no_digit {q : List Char} (hd : ∀ c ∈ q, c.isDigit = false) :
    ∀ c ∈ pyStrip (pyLower q), c.isDigit = false := by
  intro c hc
  have hc2 : c ∈ pyLower q := mem_pyStrip hc
  obtain ⟨a, ha, rfl⟩ := List.mem_map.mp hc2
  exact pyLowerChar_not_digit (hd a ha)

theorem takeWhile_digit_nil {l : List Char} (h : ∀ c ∈ l, c.isDigit = false) :
    l.takeWhile Char.isDigit = [] := by
  cases l with
  | nil => rfl
  | cons x xs =>
    rw [List.takeWhile_cons_of_neg]
    simp [h x (List.mem_cons_self x xs)]

theorem matchNumAt_none {pre suf l : List Char}
    (h : ∀ c ∈ l, c.isDigit = false) : matchNumAt pre suf l = none := by
  have hsub : ∀ c ∈ (if pre.isEmpty then l.drop pre.length
      else (l.drop pre.length).dropWhile isPySpace), c.isDigit = false := by
    intro c hc
    apply h
    by_cases hp : pre.isEmpty = true
    · rw [if_pos hp] at hc
      exact List.drop_subset _ _ hc
    · rw [if_neg hp] at hc
      exact List.drop_subset _ _ (mem_dropWhile_imp hc)
  simp only [matchNumAt, takeWhile_digit_nil hsub]
  split_ifs <;> simp_all

theorem searchNumPat_none {pre suf : List Char} {l : List Char}
    (h : ∀ c ∈ l, c.isDigit = false) : searchNumPat pre suf l = none := by
  induction l with
  | nil => rfl
  | cons x xs ih =>
    rw [searchNumPat, matchNumAt_none h]
    exact ih (fun c hc => h c (List.mem_cons_of_mem _ hc))

theorem numericScan_none {l : List Char} (h : ∀ c ∈ l, c.isDigit = false) :
    ∀ ps, numericScan ps l = none := by
  intro ps
  induction ps with
  | nil => rfl
  | cons p ps ih =>
    obtain ⟨⟨pre, suf⟩, u⟩ := p
    rw [numericScan, searchNumPat_none h]
    exact ih

theorem parseRelativeTime_none_of {q : String}
    (hd : ∀ c ∈ pyStrip (pyLower q.data), c.isDigit = false)
    (h1 : todayHit (pyStrip (pyLower q.data)) = false)
    (h2 : yesterdayHit (pyStrip (pyLower q.data)) = false)
    (h3 : lastWeekHit (pyStrip (pyLower q.data)) = false)
    (h4 : lastMonthHit (pyStrip (pyLower q.data)) = false) :
    parseRelativeTime q = none := by
  unfold parseRelativeTime
  simp only [h1, h2, h3, h4, if_false, Bool.false_eq_true]
  exact numericScan_none hd numericPatterns

theorem matchITok_dig_none {n : Nat} {ts : List ITok} {l : List Char}
    (h : ∀ c ∈ l, c.isDigit = false) : matchITok (ITok.dig (n + 1) :: ts) l = false := by
  cases l with
  | nil => simp [matchITok]
  | cons x xs =>
    rw [matchITok, List.take_succ_cons]
    simp [h x (List.mem_cons_self x xs)]

theorem searchITok_dig_none {n : Nat} {ts : List ITok} {l : List Char}
    (h : ∀ c ∈ l, c.isDigit = false) : searchITok (ITok.dig (n + 1) :: ts) l = false := by
  induction l with
  | nil => simp [searchITok, matchITok]
  | cons x xs ih =>
    rw [searchITok, matchITok_dig_none h]
    simp only [Bool.false_or]
    exact ih (fun c hc => h c (List.mem_cons_of_mem _ hc))

/-- C8: a query containing no digit characters and none of the recognised
time keywords classifies as no-time: `has_time = false`, `time_range =
None`, `type = None`, and exactly the two non-empty generic suggestions
(the relative and the absolute query syntaxes) are attached. -/
theorem no_digits_no_keywords_two_suggestions (q : String)
    (hd : ∀ c ∈ q.data, c.isDigit = false)
    (h1 : todayHit (pyStrip (pyLower q.data)) = false)
    (h2 : yesterdayHit (pyStrip (pyLower q.data)) = false)
    (h3 : lastWeekHit (pyStrip (pyLower q.data)) = false)
    (h4 : lastMonthHit (pyStrip (pyLower q.data)) = false) :
    analyzeTimeQuery q =
      { has_time := false, time_range := none,
        suggestions := [relativeSuggestion, absoluteSuggestion], type := none } ∧
    relativeSuggestion ≠ "" ∧ absoluteSuggestion ≠ "" := by
  have hd2 : ∀ c ∈ pyStrip (pyLower q.data), c.isDigit = false := processed_no_digit hd
  refine ⟨?_, by decide, by decide⟩
  have i1 : searchITok [ITok.dig 4, ITok.ch '-', ITok.dig 2, ITok.ch '-', ITok.dig 2]
      q.data = false := @searchITok_dig_none 3 _ _ hd
  have i2 : searchITok [ITok.dig 4, ITok.ch '/', ITok.dig 2, ITok.ch '/', ITok.dig 2]
      q.data = false := @searchITok_dig_none 3 _ _ hd
  have i3 : searchITok [ITok.dig 2, ITok.ch '-', ITok.dig 2] q.data = false :=
    @searchITok_dig_none 1 _ _ hd
  have i4 : searchITok [ITok.dig 2, ITok.ch '/', ITok.dig 2] q.data = false :=
    @searchITok_dig_none 1 _ _ hd
  have hind : absoluteIndicators.any (fun p => searchITok p q.data) = false := by
    simp [absoluteIndicators, i1, i2, i3, i4]
  unfold analyzeTimeQuery
  rw [parseRelativeTime_none_of hd2 h1 h2 h3 h4]
  simp [hind]

/-- C8 witness: `"hello world"` has no digits and no time keyword. -/
theorem no_digits_no_keywords_two_suggestions_witness :
    analyzeTimeQuery "hello world" =
      { has_time := false, time_range := none,
        suggestions := [relativeSuggestion, absoluteSuggestion], type := none } ∧
    relativeSuggestion ≠ "" ∧ absoluteSuggestion ≠ "" :=
  no_digits_no_keywords_two_suggestions "hello world"
    (by decide) (by decide) (by decide) (by decide) (by decide)

end TimeParser
